import Mathlib

/-!
Verification of the romidata entity/metadata model (`romidata/db.py`).

The repository ships the abstract interface (`db.py`: classes `DB`, `Scan`,
`Fileset`, `File`, `DBBusyError`; most methods raise `NotImplementedError`)
together with its test harness, while the concrete `FSDB` backend used by
the tests is not part of the source tree.  This file embeds, first, the code
that is actually present in `db.py` (the constructors and the implemented
getter methods `get_id`, `get_db`, `get_scan`, `get_fileset`), and second, a
model of the missing concrete backend, built from the specification's words
(each such definition carries a doc comment starting `Modelled from the
spec:`).  Theorems about the claims follow the definitions.
-/

/-- Embedding of class `DB` from `db.py`.  The Python class has no data
fields; the `tag` field models the object identity that distinguishes two
`DB` objects in Python. -/
structure DB where
  tag : Nat
deriving DecidableEq

/-- Embedding of class `Scan` from `db.py`: `__init__` stores `db` and `id`. -/
structure Scan where
  db : DB
  id : String

/-- `Scan.get_id` from `db.py`: `return self.id`. -/
def Scan.get_id (s : Scan) : String :=
  s.id

/-- `Scan.get_db` from `db.py`: `return self.db`. -/
def Scan.get_db (s : Scan) : DB :=
  s.db

/-- Embedding of class `Fileset` from `db.py`: `__init__` stores `db`,
`scan` and `id`. -/
structure Fileset where
  db : DB
  scan : Scan
  id : String

/-- `Fileset.get_id` from `db.py`: `return self.id`. -/
def Fileset.get_id (fs : Fileset) : String :=
  fs.id

/-- `Fileset.get_db` from `db.py`: `return self.db`. -/
def Fileset.get_db (fs : Fileset) : DB :=
  fs.db

/-- `Fileset.get_scan` from `db.py`: `return self.scan`. -/
def Fileset.get_scan (fs : Fileset) : Scan :=
  fs.scan

/-- Embedding of class `File` from `db.py`: `__init__` stores `db`,
`fileset`, `id` and sets `filename = None`. -/
structure File where
  db : DB
  fileset : Fileset
  id : String
  filename : Option String

/-- `File.__init__` from `db.py`: stores the three arguments and sets
`self.filename = None`. -/
def File.init (db : DB) (fileset : Fileset) (id : String) : File :=
  ⟨db, fileset, id, none⟩

/-- `File.get_id` from `db.py`: `return self.id`. -/
def File.get_id (f : File) : String :=
  f.id

/-- `File.get_db` from `db.py`: `return self.fileset.scan.db` (the parent
chain, not the stored `self.db`). -/
def File.get_db (f : File) : DB :=
  f.fileset.scan.db

/-- `File.get_scan` from `db.py`: `return self.fileset.scan`. -/
def File.get_scan (f : File) : Scan :=
  f.fileset.scan

/-- `File.get_fileset` from `db.py`: `return self.fileset`. -/
def File.get_fileset (f : File) : Fileset :=
  f.fileset

/-- Modelled from the spec: the error taxonomy of section 7 (the source
only declares the class `DBBusyError`; the concrete backend raising the
others is missing from the source tree). -/
inductive DBError where
  | NotConnectedError
  | NotFoundError
  | AlreadyExistsError
  | DBBusyError
  | EmptyFileError
  | EncodingError
  | ConnectionError
  | SourceNotFoundError
deriving DecidableEq

/-- Modelled from the spec: a metadata value is a scalar or a nested
structure (strings, numbers, booleans, nested maps, nested sequences). -/
inductive MVal where
  | str : String → MVal
  | num : Int → MVal
  | bool : Bool → MVal
  | arr : List MVal → MVal
  | obj : List (String × MVal) → MVal

/-- Modelled from the spec: a per-entity metadata map, keys unique,
order irrelevant; represented as an association list. -/
abbrev Metadata := List (String × MVal)

/-- Modelled from the spec: lookup of a key in a metadata map; an absent
key reads as the sentinel `none`, never an error. -/
def md_lookup : Metadata → String → Option MVal
  | [], _ => none
  | (k0, v0) :: rest, k => if k0 = k then some v0 else md_lookup rest k

/-- Modelled from the spec: single-key upsert into a metadata map, merging
into (not replacing) the existing map. -/
def md_set : Metadata → String → MVal → Metadata
  | [], k, v => [(k, v)]
  | (k0, v0) :: rest, k, v =>
    if k0 = k then (k, v) :: rest else (k0, v0) :: md_set rest k v

/-- Modelled from the spec: the `data` argument of `set_metadata` is either
a single key (a string) or a whole map. -/
inductive MetaArg where
  | key : String → MetaArg
  | map : Metadata → MetaArg

/-- Modelled from the spec: the result of `get_metadata` is either the full
map (when the key is omitted) or a single value, with `none` as the defined
absent sentinel. -/
inductive MetaResult where
  | map : Metadata → MetaResult
  | val : Option MVal → MetaResult

/-- Modelled from the spec: shared `get_metadata` contract — with no key,
the full map (in this pure model every returned value is a copy); with a
key, that key's value or the absent sentinel, never an error. -/
def get_md (md : Metadata) (key : Option String) : MetaResult :=
  match key with
  | none => .map md
  | some k => .val (md_lookup md k)

/-- Modelled from the spec: shared dual-mode `set_metadata` contract — if
`value` is omitted and `data` is a map, the whole map is replaced by `data`;
if `value` is provided, `data` is treated as a single key and `value` is
stored under it, merging into the existing map.  The two remaining argument
shapes are left unspecified by the spec; the model leaves the map
unchanged there. -/
def set_md (md : Metadata) (data : MetaArg) (value : Option MVal) : Metadata :=
  match value, data with
  | none, .map m => m
  | some v, .key k => md_set md k v
  | none, .key _ => md
  | some _, .map _ => md

/-- Modelled from the spec: a File payload is either textual or binary,
never both simultaneously; bytes are modelled as naturals. -/
inductive Payload where
  | raw : List Nat → Payload
  | text : String → Payload

/-- Modelled from the spec: the concrete backend's File — id, metadata map,
optional payload (absent until first written), and the recorded
extension. -/
structure FSDB.File where
  id : String
  metadata : Metadata
  payload : Option Payload
  ext : String

/-- Modelled from the spec: the concrete backend's Fileset — id, owned
Files, metadata map. -/
structure FSDB.Fileset where
  id : String
  files : List FSDB.File
  metadata : Metadata

/-- Modelled from the spec: the concrete backend's Scan — id, owned
Filesets, metadata map. -/
structure FSDB.Scan where
  id : String
  filesets : List FSDB.Fileset
  metadata : Metadata

/-- Modelled from the spec: the concrete backend (class `FSDB`, absent from
the source tree) — a connection state and the root collection of Scans. -/
structure FSDB where
  connected : Bool
  scans : List FSDB.Scan

/-- Modelled from the spec: `get_id` of the concrete Scan. -/
def FSDB.Scan.get_id (s : FSDB.Scan) : String :=
  s.id

/-- Modelled from the spec: `get_id` of the concrete Fileset. -/
def FSDB.Fileset.get_id (fs : FSDB.Fileset) : String :=
  fs.id

/-- Modelled from the spec: `get_id` of the concrete File. -/
def FSDB.File.get_id (f : FSDB.File) : String :=
  f.id

/-- Modelled from the spec: `connect` establishes access to the store. -/
def FSDB.connect (db : FSDB) : FSDB :=
  ⟨true, db.scans⟩

/-- Modelled from the spec: `disconnect` releases the store; safe when
already disconnected. -/
def FSDB.disconnect (db : FSDB) : FSDB :=
  ⟨false, db.scans⟩

/-- Modelled from the spec: internal lookup of a Scan by id (Scan ids are
unique within a Database). -/
def FSDB.find_scan (db : FSDB) (id : String) : Option FSDB.Scan :=
  db.scans.find? (fun s => s.id == id)

/-- Modelled from the spec: `get_scans` — all currently known Scans; fails
with `NotConnectedError` while disconnected. -/
def FSDB.get_scans (db : FSDB) : Except DBError (List FSDB.Scan) :=
  if db.connected then .ok db.scans else .error .NotConnectedError

/-- Modelled from the spec: `get_scan(id, create)` — the Scan with `id` if
present; if absent and `create` is false, `none` (not an error); if absent
and `create` is true, atomically creates and returns a new empty Scan.
Fails with `NotConnectedError` while disconnected. -/
def FSDB.get_scan (db : FSDB) (id : String) (create : Bool) :
    Except DBError (Option FSDB.Scan × FSDB) :=
  if db.connected then
    match db.find_scan id with
    | some s => .ok (some s, db)
    | none =>
      if create then
        .ok (some ⟨id, [], []⟩, ⟨db.connected, db.scans ++ [⟨id, [], []⟩]⟩)
      else
        .ok (none, db)
  else .error .NotConnectedError

/-- Modelled from the spec: `create_scan(id)` — fails with
`AlreadyExistsError` if `id` is taken, with `NotConnectedError` while
disconnected; otherwise adds a new empty Scan. -/
def FSDB.create_scan (db : FSDB) (id : String) :
    Except DBError (FSDB.Scan × FSDB) :=
  if db.connected then
    match db.find_scan id with
    | some _ => .error .AlreadyExistsError
    | none => .ok (⟨id, [], []⟩, ⟨db.connected, db.scans ++ [⟨id, [], []⟩]⟩)
  else .error .NotConnectedError

/-- Modelled from the spec: `delete_scan(id)` — fails with `NotFoundError`
if absent, with `NotConnectedError` while disconnected; otherwise removes
the Scan and, by ownership, all of its child Filesets and Files and their
metadata. -/
def FSDB.delete_scan (db : FSDB) (id : String) : Except DBError FSDB :=
  if db.connected then
    match db.find_scan id with
    | none => .error .NotFoundError
    | some _ => .ok ⟨db.connected, db.scans.filter (fun s => !(s.id == id))⟩
  else .error .NotConnectedError

/-- Modelled from the spec: internal lookup of a Fileset by id within a
Scan (Fileset ids are unique within a Scan). -/
def FSDB.Scan.find_fileset (s : FSDB.Scan) (id : String) : Option FSDB.Fileset :=
  s.filesets.find? (fun fs => fs.id == id)

/-- Modelled from the spec: `Scan.get_fileset(id, create)` — same
lookup-or-create semantics as `get_scan`, scoped one level down. -/
def FSDB.Scan.get_fileset (s : FSDB.Scan) (id : String) (create : Bool) :
    Option FSDB.Fileset × FSDB.Scan :=
  match s.find_fileset id with
  | some fs => (some fs, s)
  | none =>
    if create then
      (some ⟨id, [], []⟩, ⟨s.id, s.filesets ++ [⟨id, [], []⟩], s.metadata⟩)
    else (none, s)

/-- Modelled from the spec: `Scan.create_fileset(id)` — fails with
`AlreadyExistsError` if `id` is taken, otherwise adds a new empty
Fileset. -/
def FSDB.Scan.create_fileset (s : FSDB.Scan) (id : String) :
    Except DBError (FSDB.Fileset × FSDB.Scan) :=
  match s.find_fileset id with
  | some _ => .error .AlreadyExistsError
  | none => .ok (⟨id, [], []⟩, ⟨s.id, s.filesets ++ [⟨id, [], []⟩], s.metadata⟩)

/-- Modelled from the spec: `Scan.delete_fileset(id)` — fails with
`NotFoundError` if absent; removes the Fileset and its Files. -/
def FSDB.Scan.delete_fileset (s : FSDB.Scan) (id : String) :
    Except DBError FSDB.Scan :=
  match s.find_fileset id with
  | none => .error .NotFoundError
  | some _ => .ok ⟨s.id, s.filesets.filter (fun fs => !(fs.id == id)), s.metadata⟩

/-- Modelled from the spec: internal lookup of a File by id within a
Fileset (File ids are unique within a Fileset). -/
def FSDB.Fileset.find_file (fs : FSDB.Fileset) (id : String) : Option FSDB.File :=
  fs.files.find? (fun f => f.id == id)

/-- Modelled from the spec: `Fileset.get_file(id, create)` — same
lookup-or-create semantics as `get_scan`, scoped to Files; a freshly
created File has no payload yet. -/
def FSDB.Fileset.get_file (fs : FSDB.Fileset) (id : String) (create : Bool) :
    Option FSDB.File × FSDB.Fileset :=
  match fs.find_file id with
  | some f => (some f, fs)
  | none =>
    if create then
      (some ⟨id, [], none, ""⟩, ⟨fs.id, fs.files ++ [⟨id, [], none, ""⟩], fs.metadata⟩)
    else (none, fs)

/-- Modelled from the spec: `Fileset.create_file(id)` — fails with
`AlreadyExistsError` if `id` is taken, otherwise adds a new empty File. -/
def FSDB.Fileset.create_file (fs : FSDB.Fileset) (id : String) :
    Except DBError (FSDB.File × FSDB.Fileset) :=
  match fs.find_file id with
  | some _ => .error .AlreadyExistsError
  | none => .ok (⟨id, [], none, ""⟩, ⟨fs.id, fs.files ++ [⟨id, [], none, ""⟩], fs.metadata⟩)

/-- Modelled from the spec: `Fileset.delete_file(id)` — fails with
`NotFoundError` if absent; removes the File and its metadata. -/
def FSDB.Fileset.delete_file (fs : FSDB.Fileset) (id : String) :
    Except DBError FSDB.Fileset :=
  match fs.find_file id with
  | none => .error .NotFoundError
  | some _ => .ok ⟨fs.id, fs.files.filter (fun f => !(f.id == id)), fs.metadata⟩

/-- Modelled from the spec: `File.write_raw(buffer, ext)` — stores a binary
payload, replacing any previous payload; a non-empty `ext` records the
stored representation's extension. -/
def FSDB.File.write_raw (f : FSDB.File) (buffer : List Nat) (ext : String) :
    FSDB.File :=
  ⟨f.id, f.metadata, some (.raw buffer), if ext = "" then f.ext else ext⟩

/-- Modelled from the spec: `File.read_raw()` — the binary payload; fails
with `EmptyFileError` if the File was never written; text-written content
is returned as its UTF-8 bytes. -/
def FSDB.File.read_raw (f : FSDB.File) : Except DBError (List Nat) :=
  match f.payload with
  | none => .error .EmptyFileError
  | some (.raw b) => .ok b
  | some (.text s) => .ok (s.toUTF8.toList.map (fun u => u.toNat))

/-- Modelled from the spec: `File.write(text, ext)` — stores a textual
payload, replacing any previous payload; a non-empty `ext` records the
stored representation's extension. -/
def FSDB.File.write (f : FSDB.File) (text : String) (ext : String) :
    FSDB.File :=
  ⟨f.id, f.metadata, some (.text text), if ext = "" then f.ext else ext⟩

/-- Modelled from the spec: `File.read()` — the textual payload; fails with
`EmptyFileError` if the File was never written and with `EncodingError`
when binary-written content does not decode as UTF-8. -/
def FSDB.File.read (f : FSDB.File) : Except DBError String :=
  match f.payload with
  | none => .error .EmptyFileError
  | some (.text s) => .ok s
  | some (.raw b) =>
    match String.fromUTF8? (ByteArray.mk ⟨b.map (fun n => UInt8.ofNat n)⟩) with
    | some s => .ok s
    | none => .error .EncodingError

/-- Modelled from the spec: `get_metadata` on the concrete Scan. -/
def FSDB.Scan.get_metadata (s : FSDB.Scan) (key : Option String) : MetaResult :=
  get_md s.metadata key

/-- Modelled from the spec: dual-mode `set_metadata` on the concrete
Scan. -/
def FSDB.Scan.set_metadata (s : FSDB.Scan) (data : MetaArg) (value : Option MVal) :
    FSDB.Scan :=
  ⟨s.id, s.filesets, set_md s.metadata data value⟩

/-- Modelled from the spec: `get_metadata` on the concrete Fileset. -/
def FSDB.Fileset.get_metadata (fs : FSDB.Fileset) (key : Option String) :
    MetaResult :=
  get_md fs.metadata key

/-- Modelled from the spec: dual-mode `set_metadata` on the concrete
Fileset. -/
def FSDB.Fileset.set_metadata (fs : FSDB.Fileset) (data : MetaArg)
    (value : Option MVal) : FSDB.Fileset :=
  ⟨fs.id, fs.files, set_md fs.metadata data value⟩

/-- Modelled from the spec: `get_metadata` on the concrete File. -/
def FSDB.File.get_metadata (f : FSDB.File) (key : Option String) : MetaResult :=
  get_md f.metadata key

/-- Modelled from the spec: dual-mode `set_metadata` on the concrete
File. -/
def FSDB.File.set_metadata (f : FSDB.File) (data : MetaArg) (value : Option MVal) :
    FSDB.File :=
  ⟨f.id, set_md f.metadata data value, f.payload, f.ext⟩

/-- Modelled from the spec: reachability of a Fileset through the hierarchy
via `get_scan` then `get_fileset` (lookup only, no creation). -/
def FSDB.path_fileset (db : FSDB) (sid fid : String) : Option FSDB.Fileset :=
  (db.find_scan sid).bind (fun s => s.find_fileset fid)

/-- Modelled from the spec: reachability of a File through the hierarchy
via `get_scan`, `get_fileset`, `get_file` (lookup only, no creation). -/
def FSDB.path_file (db : FSDB) (sid fid flid : String) : Option FSDB.File :=
  (db.path_fileset sid fid).bind (fun fs => fs.find_file flid)

/-- If a predicate finds nothing in `l` and accepts `x`, then searching
`l ++ [x]` finds `x`. -/
theorem find_none_append {α : Type} (p : α → Bool) (l : List α) (x : α)
    (h : l.find? p = none) (hx : p x = true) : (l ++ [x]).find? p = some x := by
  induction l with
  | nil => simp [List.find?, hx]
  | cons a as ih =>
    rw [List.cons_append]
    cases hpa : p a with
    | true =>
      rw [List.find?_cons_of_pos _ hpa] at h
      exact absurd h (by simp)
    | false =>
      rw [List.find?_cons_of_neg _ (by simp [hpa])] at h
      rw [List.find?_cons_of_neg _ (by simp [hpa])]
      exact ih h

/-- After filtering out every element accepted by a predicate, searching
for that predicate finds nothing. -/
theorem find_filter_not {α : Type} (p : α → Bool) (l : List α) :
    (l.filter (fun a => !(p a))).find? p = none := by
  induction l with
  | nil => rfl
  | cons a as ih =>
    cases hpa : p a with
    | true => simp [List.filter_cons, hpa, ih]
    | false =>
      simp only [List.filter_cons, hpa, Bool.not_false, if_pos]
      rw [List.find?_cons_of_neg _ (by simp [hpa])]
      exact ih

/-- Looking up the key just upserted by `md_set` yields the new value. -/
theorem md_lookup_md_set_self (md : Metadata) (k : String) (v : MVal) :
    md_lookup (md_set md k v) k = some v := by
  induction md with
  | nil => simp [md_set, md_lookup]
  | cons p rest ih =>
    obtain ⟨k0, v0⟩ := p
    by_cases h : k0 = k
    · simp [md_set, h, md_lookup]
    · simp [md_set, h, md_lookup, ih]

/-- `md_set` leaves every other key's value unchanged (merge, not
replace). -/
theorem md_lookup_md_set_other (md : Metadata) (k k2 : String) (v : MVal)
    (h : k2 ≠ k) : md_lookup (md_set md k v) k2 = md_lookup md k2 := by
  induction md with
  | nil => simp [md_set, md_lookup, Ne.symm h]
  | cons p rest ih =>
    obtain ⟨k0, v0⟩ := p
    by_cases h0 : k0 = k
    · subst h0
      simp [md_set, md_lookup, Ne.symm h]
    · by_cases h2 : k0 = k2
      · subst h2
        simp [md_set, h, md_lookup]
      · simp [md_set, h0, md_lookup, h2, ih]

/-- A key that is not among a metadata map's keys looks up to the absent
sentinel. -/
theorem md_lookup_not_mem (md : Metadata) (k : String)
    (h : k ∉ md.map Prod.fst) : md_lookup md k = none := by
  induction md with
  | nil => rfl
  | cons p rest ih =>
    obtain ⟨k0, v0⟩ := p
    simp only [List.map_cons, List.mem_cons, not_or] at h
    simp [md_lookup, Ne.symm h.1, ih h.2]

/-- Claim C1: on a connected Database, for an id `a` not already taken,
`create_scan a` succeeds with a Scan whose `get_id` is `a`, a subsequent
`get_scan a` returns that Scan, and a second `create_scan a` on the
now-taken id fails with `AlreadyExistsError`. -/
theorem C1_create_then_get (db : FSDB) (a : String) (hc : db.connected = true)
    (hfree : db.find_scan a = none) :
    db.create_scan a = .ok (⟨a, [], []⟩, ⟨true, db.scans ++ [⟨a, [], []⟩]⟩) ∧
    FSDB.Scan.get_id ⟨a, [], []⟩ = a ∧
    FSDB.get_scan ⟨true, db.scans ++ [⟨a, [], []⟩]⟩ a false
      = .ok (some ⟨a, [], []⟩, ⟨true, db.scans ++ [⟨a, [], []⟩]⟩) ∧
    FSDB.create_scan ⟨true, db.scans ++ [⟨a, [], []⟩]⟩ a
      = .error .AlreadyExistsError := by
  have hfind : FSDB.find_scan ⟨true, db.scans ++ [⟨a, [], []⟩]⟩ a
      = some ⟨a, [], []⟩ :=
    find_none_append _ db.scans _ hfree (by simp)
  refine ⟨?_, rfl, ?_, ?_⟩
  · simp [FSDB.create_scan, hc, hfree]
  · simp [FSDB.get_scan, hfind]
  · simp [FSDB.create_scan, hfind]

/-- Witness for C1 at the connected empty store and id `s1`. -/
theorem C1_create_then_get_witness :
    (FSDB.mk true []).connected = true ∧
    FSDB.find_scan ⟨true, []⟩ "s1" = none ∧
    (FSDB.create_scan ⟨true, []⟩ "s1"
        = .ok (⟨"s1", [], []⟩, ⟨true, [⟨"s1", [], []⟩]⟩) ∧
      FSDB.Scan.get_id ⟨"s1", [], []⟩ = "s1" ∧
      FSDB.get_scan ⟨true, [⟨"s1", [], []⟩]⟩ "s1" false
        = .ok (some ⟨"s1", [], []⟩, ⟨true, [⟨"s1", [], []⟩]⟩) ∧
      FSDB.create_scan ⟨true, [⟨"s1", [], []⟩]⟩ "s1"
        = .error .AlreadyExistsError) :=
  ⟨rfl, rfl, C1_create_then_get ⟨true, []⟩ "s1" rfl rfl⟩

/-- Claim C3: on a connected Database, `get_scan id` with the default
`create = false` returns `none` (not an error) when the id is absent; with
`create = true` it creates and returns a new empty Scan, and a subsequent
`get_scan id` on the resulting state returns that same Scan. -/
theorem C3_get_scan_absent (db : FSDB) (id : String) (hc : db.connected = true)
    (habs : db.find_scan id = none) :
    db.get_scan id false = .ok (none, db) ∧
    db.get_scan id true
      = .ok (some ⟨id, [], []⟩, ⟨true, db.scans ++ [⟨id, [], []⟩]⟩) ∧
    FSDB.get_scan ⟨true, db.scans ++ [⟨id, [], []⟩]⟩ id false
      = .ok (some ⟨id, [], []⟩, ⟨true, db.scans ++ [⟨id, [], []⟩]⟩) := by
  have hfind : FSDB.find_scan ⟨true, db.scans ++ [⟨id, [], []⟩]⟩ id
      = some ⟨id, [], []⟩ :=
    find_none_append _ db.scans _ habs (by simp)
  refine ⟨?_, ?_, ?_⟩
  · simp [FSDB.get_scan, hc, habs]
  · simp [FSDB.get_scan, hc, habs]
  · simp [FSDB.get_scan, hfind]

/-- Witness for C3 at the connected empty store and id `missing`. -/
theorem C3_get_scan_absent_witness :
    (FSDB.mk true []).connected = true ∧
    FSDB.find_scan ⟨true, []⟩ "missing" = none ∧
    (FSDB.get_scan ⟨true, []⟩ "missing" false = .ok (none, ⟨true, []⟩) ∧
      FSDB.get_scan ⟨true, []⟩ "missing" true
        = .ok (some ⟨"missing", [], []⟩, ⟨true, [⟨"missing", [], []⟩]⟩) ∧
      FSDB.get_scan ⟨true, [⟨"missing", [], []⟩]⟩ "missing" false
        = .ok (some ⟨"missing", [], []⟩, ⟨true, [⟨"missing", [], []⟩]⟩)) :=
  ⟨rfl, rfl, C3_get_scan_absent ⟨true, []⟩ "missing" rfl rfl⟩

/-- Claim C6: every Database operation other than `connect` and
`disconnect` — `get_scans`, `get_scan`, `create_scan`, `delete_scan` —
fails with `NotConnectedError` while the Database is disconnected. -/
theorem C6_not_connected (db : FSDB) (id : String) (c : Bool)
    (hd : db.connected = false) :
    db.get_scans = .error .NotConnectedError ∧
    db.get_scan id c = .error .NotConnectedError ∧
    db.create_scan id = .error .NotConnectedError ∧
    db.delete_scan id = .error .NotConnectedError := by
  refine ⟨?_, ?_, ?_, ?_⟩ <;>
    simp [FSDB.get_scans, FSDB.get_scan, FSDB.create_scan, FSDB.delete_scan, hd]

/-- Witness for C6 at a disconnected store. -/
theorem C6_not_connected_witness :
    (FSDB.mk false []).connected = false ∧
    (FSDB.get_scans ⟨false, []⟩ = .error .NotConnectedError ∧
      FSDB.get_scan ⟨false, []⟩ "x" false = .error .NotConnectedError ∧
      FSDB.create_scan ⟨false, []⟩ "x" = .error .NotConnectedError ∧
      FSDB.delete_scan ⟨false, []⟩ "x" = .error .NotConnectedError) :=
  ⟨rfl, C6_not_connected ⟨false, []⟩ "x" false rfl⟩

/-- Claim C7: on a connected Database, `delete_scan id` fails with
`NotFoundError` when the id is absent; when it succeeds, the Scan and, by
ownership, all child Filesets and Files are removed, so the old hierarchy
is unreachable: `get_scan` returns `none` and every path lookup of a
fileset or file under the deleted scan returns `none`. -/
theorem C7_delete_scan (db : FSDB) (id : String) (hc : db.connected = true) :
    (db.find_scan id = none → db.delete_scan id = .error .NotFoundError) ∧
    ∀ db2, db.delete_scan id = .ok db2 →
      db2.get_scan id false = .ok (none, db2) ∧
      ∀ fid flid, db2.path_fileset id fid = none ∧
        db2.path_file id fid flid = none := by
  constructor
  · intro h
    simp [FSDB.delete_scan, hc, h]
  · intro db2 h
    cases hfind : db.find_scan id with
    | none => simp [FSDB.delete_scan, hc, hfind] at h
    | some s =>
      simp only [FSDB.delete_scan, hc, if_true, hfind, Except.ok.injEq] at h
      have h2 : db2.find_scan id = none := by
        rw [← h]
        exact find_filter_not (fun t => t.id == id) db.scans
      have hc2 : db2.connected = true := by
        rw [← h]
      refine ⟨?_, ?_⟩
      · simp [FSDB.get_scan, hc2, h2]
      · intro fid flid
        constructor
        · simp [FSDB.path_fileset, h2]
        · simp [FSDB.path_file, FSDB.path_fileset, h2]

/-- Witness for C7: a store holding one scan with one fileset and one
file; deleting an absent id fails, deleting the scan makes the whole old
hierarchy unreachable. -/
theorem C7_delete_scan_witness :
    FSDB.find_scan ⟨true, [⟨"s1", [⟨"fs1", [⟨"f1", [], none, ""⟩], []⟩], []⟩]⟩
      "nope" = none ∧
    FSDB.delete_scan ⟨true, [⟨"s1", [⟨"fs1", [⟨"f1", [], none, ""⟩], []⟩], []⟩]⟩
      "nope" = .error .NotFoundError ∧
    FSDB.delete_scan ⟨true, [⟨"s1", [⟨"fs1", [⟨"f1", [], none, ""⟩], []⟩], []⟩]⟩
      "s1" = .ok ⟨true, []⟩ ∧
    FSDB.get_scan ⟨true, []⟩ "s1" false = .ok (none, ⟨true, []⟩) ∧
    FSDB.path_fileset ⟨true, []⟩ "s1" "fs1" = none ∧
    FSDB.path_file ⟨true, []⟩ "s1" "fs1" "f1" = none := by
  refine ⟨rfl, ?_, rfl, ?_, ?_, ?_⟩
  · exact (C7_delete_scan
      ⟨true, [⟨"s1", [⟨"fs1", [⟨"f1", [], none, ""⟩], []⟩], []⟩]⟩
      "nope" rfl).1 rfl
  · exact ((C7_delete_scan
      ⟨true, [⟨"s1", [⟨"fs1", [⟨"f1", [], none, ""⟩], []⟩], []⟩]⟩
      "s1" rfl).2 ⟨true, []⟩ rfl).1
  · exact (((C7_delete_scan
      ⟨true, [⟨"s1", [⟨"fs1", [⟨"f1", [], none, ""⟩], []⟩], []⟩]⟩
      "s1" rfl).2 ⟨true, []⟩ rfl).2 "fs1" "f1").1
  · exact (((C7_delete_scan
      ⟨true, [⟨"s1", [⟨"fs1", [⟨"f1", [], none, ""⟩], []⟩], []⟩]⟩
      "s1" rfl).2 ⟨true, []⟩ rfl).2 "fs1" "f1").2

/-- Claim C2: the dual-mode `set_metadata` shared by Scan, Fileset and
File — with the value omitted and a map argument the whole metadata map is
replaced; with a value the data argument is a single key whose value is
upserted, merging into (not replacing) the existing map; concretely,
replacing with the map `k : v` and then setting `k2 : v2` reads back the
merged two-entry map. -/
theorem C2_set_metadata_modes (s : FSDB.Scan) (fs : FSDB.Fileset)
    (f : FSDB.File) (m md : Metadata) (k k2 : String) (v : MVal)
    (hne : k2 ≠ k) :
    (s.set_metadata (.map m) none).metadata = m ∧
    (fs.set_metadata (.map m) none).metadata = m ∧
    (f.set_metadata (.map m) none).metadata = m ∧
    md_lookup (set_md md (.key k) (some v)) k = some v ∧
    md_lookup (set_md md (.key k) (some v)) k2 = md_lookup md k2 ∧
    ((s.set_metadata (.map [("k", .str "v")]) none).set_metadata
        (.key "k2") (some (.str "v2"))).get_metadata none
      = .map [("k", .str "v"), ("k2", .str "v2")] :=
  ⟨rfl, rfl, rfl, md_lookup_md_set_self md k v,
    md_lookup_md_set_other md k k2 v hne, rfl⟩

/-- Witness for C2 at a concrete scan, fileset, file and keys. -/
theorem C2_set_metadata_modes_witness :
    ("k2" : String) ≠ "k" ∧
    ((FSDB.Scan.set_metadata ⟨"s", [], []⟩ (.map []) none).metadata = [] ∧
      (FSDB.Fileset.set_metadata ⟨"fs", [], []⟩ (.map []) none).metadata = [] ∧
      (FSDB.File.set_metadata ⟨"f", [], none, ""⟩ (.map []) none).metadata = [] ∧
      md_lookup (set_md [] (.key "k") (some (.str "x"))) "k" = some (.str "x") ∧
      md_lookup (set_md [] (.key "k") (some (.str "x"))) "k2"
        = md_lookup [] "k2" ∧
      ((FSDB.Scan.set_metadata ⟨"s", [], []⟩
            (.map [("k", .str "v")]) none).set_metadata
          (.key "k2") (some (.str "v2"))).get_metadata none
        = .map [("k", .str "v"), ("k2", .str "v2")]) :=
  ⟨by decide, C2_set_metadata_modes ⟨"s", [], []⟩ ⟨"fs", [], []⟩
    ⟨"f", [], none, ""⟩ [] [] "k" "k2" (.str "x") (by decide)⟩

/-- Claim C4: `get_metadata` with a key absent from the entity's metadata
returns the absent sentinel `none` — and, being a total function in this
model, never raises; with the key omitted it returns the full metadata
map (in this pure model necessarily a copy, so nothing done with the
returned value can affect what later reads observe). -/
theorem C4_get_metadata_absent (s : FSDB.Scan) (fs : FSDB.Fileset)
    (f : FSDB.File) (k : String)
    (hs : k ∉ s.metadata.map Prod.fst) (hfs : k ∉ fs.metadata.map Prod.fst)
    (hf : k ∉ f.metadata.map Prod.fst) :
    s.get_metadata (some k) = .val none ∧
    fs.get_metadata (some k) = .val none ∧
    f.get_metadata (some k) = .val none ∧
    s.get_metadata none = .map s.metadata ∧
    fs.get_metadata none = .map fs.metadata ∧
    f.get_metadata none = .map f.metadata := by
  refine ⟨?_, ?_, ?_, rfl, rfl, rfl⟩
  · simp [FSDB.Scan.get_metadata, get_md, md_lookup_not_mem _ _ hs]
  · simp [FSDB.Fileset.get_metadata, get_md, md_lookup_not_mem _ _ hfs]
  · simp [FSDB.File.get_metadata, get_md, md_lookup_not_mem _ _ hf]

/-- Witness for C4 at entities carrying the single key `k` and the absent
key `nope`. -/
theorem C4_get_metadata_absent_witness :
    ("nope" : String) ∉
      ([("k", MVal.str "v")] : Metadata).map Prod.fst ∧
    (FSDB.Scan.get_metadata ⟨"s", [], [("k", .str "v")]⟩ (some "nope")
        = .val none ∧
      FSDB.Fileset.get_metadata ⟨"fs", [], [("k", .str "v")]⟩ (some "nope")
        = .val none ∧
      FSDB.File.get_metadata ⟨"f", [("k", .str "v")], none, ""⟩ (some "nope")
        = .val none ∧
      FSDB.Scan.get_metadata ⟨"s", [], [("k", .str "v")]⟩ none
        = .map [("k", .str "v")] ∧
      FSDB.Fileset.get_metadata ⟨"fs", [], [("k", .str "v")]⟩ none
        = .map [("k", .str "v")] ∧
      FSDB.File.get_metadata ⟨"f", [("k", .str "v")], none, ""⟩ none
        = .map [("k", .str "v")]) :=
  ⟨by simp, C4_get_metadata_absent ⟨"s", [], [("k", .str "v")]⟩
    ⟨"fs", [], [("k", .str "v")]⟩ ⟨"f", [("k", .str "v")], none, ""⟩
    "nope" (by simp) (by simp) (by simp)⟩

/-- Claim C8: payload round-trip — `write_raw` of a byte buffer followed
by `read_raw` returns that buffer, and `write` of a string followed by
`read` returns that string. -/
theorem C8_payload_roundtrip (f : FSDB.File) (b : List Nat)
    (s e1 e2 : String) :
    (f.write_raw b e1).read_raw = .ok b ∧ (f.write s e2).read = .ok s :=
  ⟨rfl, rfl⟩

/-- Claim C9: ids are assigned at construction and immutable thereafter —
`get_id` returns exactly the id passed to the constructor (for the
abstract `Scan`, `Fileset` and `File` of `db.py` and the concrete
entities), a created child carries exactly the requested id, and every
operation of the interface leaves an entity's id unchanged. -/
theorem C9_id_immutable (db : DB) (sc : Scan) (fs : Fileset)
    (cs : FSDB.Scan) (cfs : FSDB.Fileset) (cf : FSDB.File)
    (d : MetaArg) (v : Option MVal) (id fid flid e txt : String)
    (c : Bool) (b : List Nat) :
    Scan.get_id ⟨db, id⟩ = id ∧
    Fileset.get_id ⟨db, sc, id⟩ = id ∧
    File.get_id (File.init db fs id) = id ∧
    (cs.set_metadata d v).get_id = cs.get_id ∧
    ((cs.get_fileset fid c).2).get_id = cs.get_id ∧
    (cs.create_fileset fid).map (fun x => (x.1.get_id, x.2.get_id))
      = (cs.create_fileset fid).map (fun _ => (fid, cs.get_id)) ∧
    (cs.delete_fileset fid).map (fun s2 => s2.get_id)
      = (cs.delete_fileset fid).map (fun _ => cs.get_id) ∧
    (cfs.set_metadata d v).get_id = cfs.get_id ∧
    ((cfs.get_file flid c).2).get_id = cfs.get_id ∧
    (cfs.create_file flid).map (fun x => (x.1.get_id, x.2.get_id))
      = (cfs.create_file flid).map (fun _ => (flid, cfs.get_id)) ∧
    (cfs.delete_file flid).map (fun f2 => f2.get_id)
      = (cfs.delete_file flid).map (fun _ => cfs.get_id) ∧
    (cf.set_metadata d v).get_id = cf.get_id ∧
    (cf.write_raw b e).get_id = cf.get_id ∧
    (cf.write txt e).get_id = cf.get_id := by
  refine ⟨rfl, rfl, rfl, rfl, ?_, ?_, ?_, rfl, ?_, ?_, ?_, rfl, rfl, rfl⟩
  · cases hf : cs.find_fileset fid <;> cases c <;>
      simp [FSDB.Scan.get_fileset, hf, FSDB.Scan.get_id]
  · cases hf : cs.find_fileset fid <;>
      simp [FSDB.Scan.create_fileset, hf, Except.map,
        FSDB.Scan.get_id, FSDB.Fileset.get_id]
  · cases hf : cs.find_fileset fid <;>
      simp [FSDB.Scan.delete_fileset, hf, Except.map, FSDB.Scan.get_id]
  · cases hf : cfs.find_file flid <;> cases c <;>
      simp [FSDB.Fileset.get_file, hf, FSDB.Fileset.get_id]
  · cases hf : cfs.find_file flid <;>
      simp [FSDB.Fileset.create_file, hf, Except.map,
        FSDB.Fileset.get_id, FSDB.File.get_id]
  · cases hf : cfs.find_file flid <;>
      simp [FSDB.Fileset.delete_file, hf, Except.map, FSDB.Fileset.get_id]

/-- Claim C10: for a File constructed as `File(db, fileset, id)`, `get_db`
returns `fileset.scan.db` — the Database reached through the parent
chain — and it equals the stored `db` argument exactly when the two
coincide; `get_scan` returns `fileset.scan`. -/
theorem C10_file_parent_chain (db : DB) (fs : Fileset) (id : String) :
    File.get_db (File.init db fs id) = fs.scan.db ∧
    File.get_scan (File.init db fs id) = fs.scan ∧
    (File.get_db (File.init db fs id) = db ↔ fs.scan.db = db) :=
  ⟨rfl, rfl, Iff.rfl⟩
